import Mathlib

/-!
Shallow embedding of the `gift-with-purchase` custom element
(`src/gift-with-purchase.js`).  Amounts are modelled as exact rationals
(JS numbers on the decimal values the component handles), cart snapshots
as optional fields (a missing / `undefined` field is `none`), and the
remote cart mutations as an explicit list of issued requests.  Each
recompute entry point of the component is embedded as a pure function
from the instance state (and the snapshot / input) to the new state, the
HTTP requests fired during that synchronous turn, and the DOM events
dispatched during it.  An `async` method runs synchronously up to its
first `await`; everything before that point (in particular firing the
`fetch` requests) belongs to the synchronous turn, while the
continuation after the `await` (flag updates, completion events) is
modelled separately as a function of the fetch outcomes.
-/

namespace GWP

/-- A cart line item as the component consumes it: the string form of its
variant id (the source always compares `lineItem.variant_id.toString()`
against `this.#variantId.toString()`), its line `key`, and whether
`properties?._gwp_item === 'true'`. -/
structure LineItem where
  variant_id : String
  key : String
  gwpItem : Bool
deriving DecidableEq, Repr

/-- A cart snapshot as delivered by the `cart-dialog:data-changed` event:
`calculated_subtotal` in cents (`none` when the field is `undefined`) and
an optional `items` array (`none` when `undefined`/`null`; note that an
empty array is truthy in JS and is therefore `some []`, not `none`). -/
structure Cart where
  calculated_subtotal : Option ℚ
  items : Option (List LineItem)
deriving DecidableEq, Repr

/-- The private instance fields of the `GiftWithPurchase` class that the
state engine reads and writes.  `variantId` is `none` when the
`variant-id` attribute is absent (`getAttribute` returns `null`). -/
structure GWPState where
  threshold : ℚ
  currentAmount : ℚ
  variantId : Option String
  isActive : Bool
  isAdded : Bool
  promoEnded : Bool
  messageAbove : Option String
  messageBelow : Option String
deriving DecidableEq, Repr

/-- JS truthiness of a nullable string: `null` and the empty string are
falsy, every other string is truthy (used for `!this.#variantId`,
`this.#messageAbove && ...`). -/
def jsTruthyStr : Option String → Bool
  | none => false
  | some s => !s.isEmpty

/-- An HTTP request the component fires at the cart backend.
`addGift v q` is the `POST /cart/add.js` of `#addGiftToCart`, carrying
`{id: v, quantity: q, properties: {_gwp_item, _hide_in_cart,
_ignore_price_in_subtotal}}` (always with `q = 1` in the source);
`removeLine k q` is the `POST /cart/change.js` of `#removeAllGiftItems`,
carrying `{id: k, quantity: q}` (always with `q = 0` in the source). -/
inductive Request where
  | addGift (variantId : String) (quantity : ℕ)
  | removeLine (key : String) (quantity : ℕ)
deriving DecidableEq, Repr

/-- A `CustomEvent` the component dispatches: `gwp:added`, `gwp:removed`
(each carrying the configured variant id) or `gwp:error` (carrying the
failed action, `"add"` or `"remove"`, and a human-readable message). -/
inductive DomEvent where
  | added (variantId : Option String)
  | removed (variantId : Option String)
  | error (action : String) (message : String)
deriving DecidableEq, Repr

/-- The filter the source applies to `cart.items` in `#checkGiftInCart`
and `#removeGiftFromCart`: keep the lines whose variant id equals the
configured one (string comparison) and whose `_gwp_item` property is the
string `"true"`. -/
def giftLinesOf (variantId : String) (items : List LineItem) : List LineItem :=
  items.filter (fun li => li.variant_id == variantId && li.gwpItem)

/-- The embedding of `#checkGiftInCart(cart)`: when the snapshot has no
items array or no (truthy) variant id is configured, clear `isAdded`;
otherwise set `isAdded` from the matched gift lines and, when the promo
has ended and some line matched, fire (via `#removeAllGiftItems`) one
quantity-0 `/cart/change.js` request per matched line.  The completion
of those requests resolves after this turn and is modelled separately. -/
def checkGiftInCart (s : GWPState) (cart : Cart) : GWPState × List Request :=
  match cart.items, s.variantId with
  | none, _ => ({ s with isAdded := false }, [])
  | some _, none => ({ s with isAdded := false }, [])
  | some its, some v =>
    if v.isEmpty then ({ s with isAdded := false }, [])
    else
      let g := giftLinesOf v its
      ({ s with isAdded := !g.isEmpty },
       if s.promoEnded && !g.isEmpty then g.map (fun li => Request.removeLine li.key 0) else [])

/-- The synchronous prefix of `#removeGiftFromCart(cart)`: filter the
snapshot's items; with no matching line, clear `isAdded` and return;
otherwise hand the matched lines to `#removeAllGiftItems`, which fires
one quantity-0 `/cart/change.js` request per line before suspending on
`Promise.all` (clearing `isAdded` and the `gwp:removed` event belong to
the deferred continuation, not to this turn).  A snapshot whose `items`
is `undefined`, or a nonempty one filtered with a `null` variant id,
makes the filter callback throw a `TypeError`, which the surrounding
`catch` turns into a single `gwp:error` event with action `"remove"`. -/
def removeGiftFromCartSync (s : GWPState) (cart : Cart) :
    GWPState × List Request × List DomEvent :=
  match cart.items with
  | none => (s, [], [DomEvent.error "remove" "TypeError: cart.items is undefined"])
  | some its =>
    match s.variantId with
    | none =>
      if its.isEmpty then ({ s with isAdded := false }, [], [])
      else (s, [], [DomEvent.error "remove" "TypeError: variantId is null"])
    | some v =>
      let g := giftLinesOf v its
      if g.isEmpty then ({ s with isAdded := false }, [], [])
      else (s, g.map (fun li => Request.removeLine li.key 0), [])

/-- The synchronous turn of `#updateState(cart)`: recompute `isActive`
from the current amount, the threshold and the promo flag; when the
promo has ended, invoke `#removeGiftFromCart` unconditionally; then, on
a rising activity edge with the gift not marked added and a truthy
variant id, fire the add request of `#addGiftToCart`, and on a falling
edge with the gift marked added and a truthy variant id, invoke
`#removeGiftFromCart` (again).  The trailing `#updateVisualState` /
`#updateMessages` calls only write to the DOM and are modelled by
`updateMessage` below. -/
def updateStateTick (s : GWPState) (cart : Cart) :
    GWPState × List Request × List DomEvent :=
  let wasActive := s.isActive
  let s1 := { s with isActive := decide (s.threshold ≤ s.currentAmount) && !s.promoEnded }
  let p := if s1.promoEnded then removeGiftFromCartSync s1 cart else (s1, [], [])
  let s2 := p.1
  if s2.isActive && !wasActive && !s2.isAdded && jsTruthyStr s2.variantId then
    (s2, p.2.1 ++ [Request.addGift (s2.variantId.getD "") 1], p.2.2)
  else if !s2.isActive && wasActive && s2.isAdded && jsTruthyStr s2.variantId then
    let q := removeGiftFromCartSync s2 cart
    (q.1, p.2.1 ++ q.2.1, p.2.2 ++ q.2.2)
  else (s2, p.2.1, p.2.2)

/-- The body of the debounce callback in `#handleCartDataChange`: set
`currentAmount` to `parseFloat(cart.calculated_subtotal / 100) || 0`
(exact division on the rational model; a missing subtotal would give
`NaN || 0 = 0`, though the handler never schedules the callback in that
case), then run `#checkGiftInCart` and `#updateState` on the snapshot. -/
def processSnapshotTick (s : GWPState) (cart : Cart) :
    GWPState × List Request × List DomEvent :=
  let amt : ℚ := match cart.calculated_subtotal with
    | some q => q / 100
    | none => 0
  let c := checkGiftInCart { s with currentAmount := amt } cart
  let u := updateStateTick c.1 cart
  (u.1, c.2 ++ u.2.1, u.2.2)

/-- The synthetic snapshot `{ items: [] }` the public setters pass to
`#updateState` to avoid cart operations: its items list is present but
empty, and it carries no subtotal. -/
def emptyCart : Cart := { calculated_subtotal := none, items := some [] }

/-- The embedding of `setCurrentAmount(amount)`: store the parsed amount
(modelled as the already-parsed rational of `parseFloat(amount) || 0`)
and rerun `#updateState` against the synthetic empty snapshot. -/
def setCurrentAmountTick (s : GWPState) (amount : ℚ) :
    GWPState × List Request × List DomEvent :=
  updateStateTick { s with currentAmount := amount } emptyCart

/-- The embedding of `setThreshold(threshold)`: store the parsed
threshold and rerun `#updateState` against the synthetic empty
snapshot. -/
def setThresholdTick (s : GWPState) (t : ℚ) :
    GWPState × List Request × List DomEvent :=
  updateStateTick { s with threshold := t } emptyCart

/-- Process a chronological list of (debounced) snapshots, accumulating
the requests fired across the successive recomputes. -/
def processAll (s : GWPState) (carts : List Cart) : GWPState × List Request :=
  carts.foldl (fun acc c =>
    let r := processSnapshotTick acc.1 c
    (r.1, acc.2 ++ r.2.1)) (s, [])

/-- Recognize the add request among fired requests. -/
def isAddReq : Request → Bool
  | .addGift _ _ => true
  | .removeLine _ _ => false

/-- Recognize a line-removal request among fired requests. -/
def isRemoveReq : Request → Bool
  | .addGift _ _ => false
  | .removeLine _ _ => true

/-- Number of add requests in a fired-request list. -/
def countAdds (rs : List Request) : ℕ := (rs.filter isAddReq).length

/-- Number of line-removal requests in a fired-request list. -/
def countRemoves (rs : List Request) : ℕ := (rs.filter isRemoveReq).length

/-- A notification delivered to `#handleCartDataChange`: its arrival
time (in the same time-units as the 300-unit debounce window) and the
cart payload carried in `event.detail`. -/
structure Notification where
  time : ℚ
  cart : Cart
deriving DecidableEq, Repr

/-- The guard at the top of `#handleCartDataChange`: a notification
whose payload lacks `calculated_subtotal` returns before touching the
debounce timer. -/
def acceptsNotification (c : Cart) : Bool := c.calculated_subtotal.isSome

/-- Which of a chronological list of accepted notifications get their
debounce callback to fire: each accepted notification clears the pending
timer and schedules its own callback 300 units later, so a
notification's callback runs iff the next accepted notification (if
any) arrives no earlier than 300 units after it. -/
def firedCarts : List Notification → List Cart
  | [] => []
  | [n] => [n.cart]
  | n :: m :: rest =>
    (if n.time + 300 ≤ m.time then [n.cart] else []) ++ firedCarts (m :: rest)

/-- The snapshots whose debounce callbacks run, for a chronological list
of raw notifications: rejected notifications (missing subtotal) are
dropped without touching the timer, then the window-reset rule above
applies. -/
def debounceFired (ns : List Notification) : List Cart :=
  firedCarts (ns.filter (fun n => acceptsNotification n.cart))

/-- Outcome of one `fetch` call as the component observes it: `err m` is
a rejection at any await point of the call chain (transport failure of
the request, or failure reading/parsing the response body) with message
`m`; `ok st` is the request resolving with HTTP status `st` (and, where
the source consumes the body, the body reading successfully). -/
inductive FetchOutcome where
  | err (msg : String)
  | ok (status : ℕ)
deriving DecidableEq, Repr

/-- The `Response.ok` predicate of the Fetch API: status in 200–299. -/
def is2xx (status : ℕ) : Bool := 200 ≤ status && status ≤ 299

/-- The message of the rejection `Promise.all` settles with, if any:
the source never inspects `res.ok` or `res.status` in
`#removeAllGiftItems`, so only a rejected fetch (`err`) fails the bulk
operation; a resolved response of any status counts as success. -/
def firstErr : List FetchOutcome → Option String
  | [] => none
  | .err m :: _ => some m
  | .ok _ :: rest => firstErr rest

/-- The embedding of `#removeAllGiftItems(giftLines)` run to completion:
fire one quantity-0 `/cart/change.js` request per gift line (all before
`Promise.all` suspends, i.e. in parallel), then, when every fetch
resolves — the statuses are never checked — clear `isAdded` and
dispatch `gwp:removed`; when any fetch rejects, the single `catch`
dispatches one `gwp:error` with action `"remove"` and leaves the state
unchanged. -/
def removeAllGiftItems (s : GWPState) (giftLines : List LineItem)
    (outcomes : List FetchOutcome) : GWPState × List Request × List DomEvent :=
  let reqs := giftLines.map (fun li => Request.removeLine li.key 0)
  match firstErr outcomes with
  | none => ({ s with isAdded := false }, reqs, [DomEvent.removed s.variantId])
  | some m => (s, reqs, [DomEvent.error "remove" m])

/-- The embedding of `#addGiftToCart()` run to completion: fire the
`/cart/add.js` request; on a rejection the `catch` dispatches one
`gwp:error` with action `"add"` and the rejection's message; on a
resolved response with a non-2xx status, `if (!res.ok) throw` routes to
the same `catch` with message `http <status>`; on a 2xx response (whose
JSON body then reads successfully) set `isAdded` and dispatch
`gwp:added` with the variant id.  No failure escapes the method. -/
def addGiftToCart (s : GWPState) (outcome : FetchOutcome) :
    GWPState × List Request × List DomEvent :=
  let reqs := [Request.addGift (s.variantId.getD "") 1]
  match outcome with
  | .err m => (s, reqs, [DomEvent.error "add" m])
  | .ok st =>
    if is2xx st then ({ s with isAdded := true }, reqs, [DomEvent.added s.variantId])
    else (s, reqs, [DomEvent.error "add" ("http " ++ toString st)])

/-- Drop the leading whitespace of a character list (the `\s*` of the
placeholder regex). -/
def dropWs : List Char → List Char
  | [] => []
  | c :: rest => if c.isWhitespace then dropWs rest else c :: rest

/-- Try to match the regex `\{\s*amount\s*\}` at the head of the
character list; on success return the remainder after the match. -/
def matchAmountTok : List Char → Option (List Char)
  | c :: rest =>
    if c = '\x7b' then
      match dropWs rest with
      | 'a' :: 'm' :: 'o' :: 'u' :: 'n' :: 't' :: r2 =>
        match dropWs r2 with
        | d :: r4 => if d = '\x7d' then some r4 else none
        | [] => none
      | _ => none
    else none
  | [] => none

/-- Try to match the regex `\{amount\}` (no inner whitespace) at the
head of the character list. -/
def matchAmountTokTight : List Char → Option (List Char)
  | '\x7b' :: 'a' :: 'm' :: 'o' :: 'u' :: 'n' :: 't' :: d :: r =>
    if d = '\x7d' then some r else none
  | _ => none

/-- One global-replace pass: scan left to right, substituting `rep` for
every match of the token recognizer `tok`.  The fuel argument (the input
length suffices, since every step consumes at least one character) keeps
the recursion structural. -/
def replacePass (tok : List Char → Option (List Char)) (rep : List Char) :
    ℕ → List Char → List Char
  | 0, cs => cs
  | _ + 1, [] => []
  | fuel + 1, c :: rest =>
    match tok (c :: rest) with
    | some r => rep ++ replacePass tok rep fuel r
    | none => c :: replacePass tok rep fuel rest

/-- The two chained global replaces of `#updateMessages`:
`.replace(/\{\s*amount\s*\}/g, f).replace(/\{amount\}/g, f)`. -/
def replaceAmount (template rep : String) : String :=
  let p1 := replacePass matchAmountTok rep.toList template.toList.length template.toList
  String.mk (replacePass matchAmountTokTight rep.toList p1.length p1)

/-- The `toFixed(2)` of an exact rational (the ECMAScript rule on the
ideal decimal value: take the sign, round the magnitude to the nearest
hundredth with ties away from zero going up, print two fraction
digits). -/
def toFixed2 (x : ℚ) : String :=
  let sgn := if x < 0 then "-" else ""
  let n : ℤ := ⌊|x| * 100 + 1 / 2⌋
  let np : ℕ := n.toNat
  sgn ++ toString (np / 100) ++ "." ++ (if np % 100 < 10 then "0" else "") ++ toString (np % 100)

/-- The `.replace(/\.00$/, '')` of `#updateMessages`: strip a trailing
`.00` (expressed on the character list so that concrete renderings
evaluate). -/
def stripDot00 (s : String) : String :=
  if s.data.reverse.take 3 = ['0', '0', '.'] then String.mk (s.data.take (s.data.length - 3))
  else s

/-- The message text `#updateMessages` writes into the
`[data-content-gwp-message]` element (when one exists): the
above-threshold message verbatim while active, the below-threshold
message with the formatted remaining amount `threshold - currentAmount`
substituted for the placeholder while inactive, the empty string
otherwise (which also hides the element). -/
def updateMessage (s : GWPState) : String :=
  if s.isActive && jsTruthyStr s.messageAbove then s.messageAbove.getD ""
  else if !s.isActive && jsTruthyStr s.messageBelow then
    let formattedAmount := stripDot00 (toFixed2 (s.threshold - s.currentAmount))
    replaceAmount (s.messageBelow.getD "") formattedAmount
  else ""

/-- The attribute names the class declares in
`static get observedAttributes()`. -/
def observedAttributes : List String :=
  ["threshold", "current", "variant-id", "promo-ended", "message-above", "message-below"]

/-- What happens to the instance when an observed attribute changes
after attachment.  The class declares `observedAttributes` but defines
no `attributeChangedCallback`, so the platform finds no callback to
invoke: no configuration field is re-parsed, no recompute runs, and no
request is fired — the instance is left untouched. -/
def attributeChangedReaction (s : GWPState) (_name : String) (_newVal : Option String) :
    GWPState × List Request := (s, [])

/-- The timer ids `disconnectedCallback` passes to `clearTimeout`: only
the stored `#debounceTimer`, when one is pending.  The retry timer of
`#attachListeners` is scheduled anonymously (no instance field holds its
id), so teardown has nothing to clear it with. -/
def disconnectedCancels (debounceTimer : Option ℕ) : List ℕ :=
  match debounceTimer with
  | some t => [t]
  | none => []

/-- Whether `disconnectedCallback` detaches the cart-changed listener:
it does exactly when a `cart-dialog` ancestor had been found and stored
in `#cartDialog`. -/
def disconnectedDetachesListener (cartDialogStored : Bool) : Bool := cartDialogStored

/-- The retry timers `#attachListeners` schedules: when no `cart-dialog`
ancestor is found at attach time, one retry callback is scheduled 100
units later under the fresh id `rid`, stored nowhere. -/
def attachRetryTimers (dialogPresent : Bool) (rid : ℕ) : List ℕ :=
  if dialogPresent then [] else [rid]

/-- A connect-immediately-followed-by-disconnect run with no cart
notifications in between (so no debounce timer is pending): the timers
still pending after teardown are the scheduled retry timers minus the
cancelled ones. -/
def pendingAfterTeardown (dialogPresent : Bool) (rid : ℕ) : List ℕ :=
  (attachRetryTimers dialogPresent rid).filter (fun t => t ∉ disconnectedCancels none)

/-- The recomputed-activity invariant the state engine maintains:
`isActive` is exactly the comparison of the current amount against the
(unconverted — the source applies no currency rate, i.e. the rate
defaults to 1) threshold, gated by the promo flag. -/
def activityInvariant (s : GWPState) : Prop :=
  s.isActive = (decide (s.threshold ≤ s.currentAmount) && !s.promoEnded)

/-- The amount the debounce callback derives from a snapshot:
`calculated_subtotal / 100` (0 when the subtotal is missing, as
`parseFloat(undefined / 100) || 0` would give). -/
def snapshotAmt (c : Cart) : ℚ :=
  match c.calculated_subtotal with
  | some q => q / 100
  | none => 0

/-- The gift lines the configured variant id matches in a snapshot: the
filter of `#checkGiftInCart`, returning `[]` when the snapshot has no
items array or no truthy variant id is configured. -/
def matchedLines (v : Option String) (c : Cart) : List LineItem :=
  match c.items, v with
  | some its, some vv => if vv.isEmpty then [] else giftLinesOf vv its
  | _, _ => []

lemma removeSync_fst (s : GWPState) (c : Cart) :
    ∃ b, (removeGiftFromCartSync s c).1 = { s with isAdded := b } := by
  cases hc : c.items with
  | none => exact ⟨s.isAdded, by simp [removeGiftFromCartSync, hc]⟩
  | some its =>
    cases hv : s.variantId with
    | none =>
      by_cases h : its.isEmpty = true
      · exact ⟨false, by simp [removeGiftFromCartSync, hc, hv, h]⟩
      · refine ⟨s.isAdded, ?_⟩
        simp [removeGiftFromCartSync, hc, hv, h]
        rw [← hv]
    | some v =>
      by_cases h : (giftLinesOf v its).isEmpty = true
      · exact ⟨false, by simp [removeGiftFromCartSync, hc, hv, h]⟩
      · refine ⟨s.isAdded, ?_⟩
        simp [removeGiftFromCartSync, hc, hv, h]
        rw [← hv]

lemma checkGift_fst (s : GWPState) (c : Cart) :
    ∃ b, (checkGiftInCart s c).1 = { s with isAdded := b } := by
  cases hc : c.items with
  | none => exact ⟨false, by simp [checkGiftInCart, hc]⟩
  | some its =>
    cases hv : s.variantId with
    | none => exact ⟨false, by simp [checkGiftInCart, hc, hv]⟩
    | some v =>
      by_cases h : v.isEmpty = true
      · exact ⟨false, by simp [checkGiftInCart, hc, hv, h]⟩
      · exact ⟨!(giftLinesOf v its).isEmpty, by simp [checkGiftInCart, hc, hv, h]⟩

lemma removeSync_isActive (s : GWPState) (c : Cart) :
    ((removeGiftFromCartSync s c).1).isActive = s.isActive := by
  obtain ⟨b, hb⟩ := removeSync_fst s c
  rw [hb]

lemma removeSync_currentAmount (s : GWPState) (c : Cart) :
    ((removeGiftFromCartSync s c).1).currentAmount = s.currentAmount := by
  obtain ⟨b, hb⟩ := removeSync_fst s c
  rw [hb]

lemma removeSync_threshold (s : GWPState) (c : Cart) :
    ((removeGiftFromCartSync s c).1).threshold = s.threshold := by
  obtain ⟨b, hb⟩ := removeSync_fst s c
  rw [hb]

lemma removeSync_promoEnded (s : GWPState) (c : Cart) :
    ((removeGiftFromCartSync s c).1).promoEnded = s.promoEnded := by
  obtain ⟨b, hb⟩ := removeSync_fst s c
  rw [hb]

lemma removeSync_variantId (s : GWPState) (c : Cart) :
    ((removeGiftFromCartSync s c).1).variantId = s.variantId := by
  obtain ⟨b, hb⟩ := removeSync_fst s c
  rw [hb]

lemma checkGift_isActive (s : GWPState) (c : Cart) :
    ((checkGiftInCart s c).1).isActive = s.isActive := by
  obtain ⟨b, hb⟩ := checkGift_fst s c
  rw [hb]

lemma checkGift_currentAmount (s : GWPState) (c : Cart) :
    ((checkGiftInCart s c).1).currentAmount = s.currentAmount := by
  obtain ⟨b, hb⟩ := checkGift_fst s c
  rw [hb]

lemma checkGift_threshold (s : GWPState) (c : Cart) :
    ((checkGiftInCart s c).1).threshold = s.threshold := by
  obtain ⟨b, hb⟩ := checkGift_fst s c
  rw [hb]

lemma checkGift_promoEnded (s : GWPState) (c : Cart) :
    ((checkGiftInCart s c).1).promoEnded = s.promoEnded := by
  obtain ⟨b, hb⟩ := checkGift_fst s c
  rw [hb]

lemma checkGift_variantId (s : GWPState) (c : Cart) :
    ((checkGiftInCart s c).1).variantId = s.variantId := by
  obtain ⟨b, hb⟩ := checkGift_fst s c
  rw [hb]

lemma uST_isActive (s : GWPState) (c : Cart) :
    ((updateStateTick s c).1).isActive =
      (decide (s.threshold ≤ s.currentAmount) && !s.promoEnded) := by
  simp only [updateStateTick]
  repeat' split
  all_goals simp [removeSync_isActive]

lemma uST_currentAmount (s : GWPState) (c : Cart) :
    ((updateStateTick s c).1).currentAmount = s.currentAmount := by
  simp only [updateStateTick]
  repeat' split
  all_goals simp [removeSync_currentAmount]

lemma uST_threshold (s : GWPState) (c : Cart) :
    ((updateStateTick s c).1).threshold = s.threshold := by
  simp only [updateStateTick]
  repeat' split
  all_goals simp [removeSync_threshold]

lemma uST_promoEnded (s : GWPState) (c : Cart) :
    ((updateStateTick s c).1).promoEnded = s.promoEnded := by
  simp only [updateStateTick]
  repeat' split
  all_goals simp [removeSync_promoEnded]

lemma uST_variantId (s : GWPState) (c : Cart) :
    ((updateStateTick s c).1).variantId = s.variantId := by
  simp only [updateStateTick]
  repeat' split
  all_goals simp [removeSync_variantId]

/-- C1: after every recompute — whether driven by a debounced cart
snapshot or by the programmatic setters `setCurrentAmount` /
`setThreshold` — the live flag `isActive` equals
`(currentAmount >= threshold) && !promoEnded` (the source applies no
currency rate, so the converted threshold is the threshold itself); in
particular any state satisfying this recomputed invariant is active
whenever `currentAmount >= threshold` with the promo not ended, and
inactive whenever `currentAmount < threshold`, regardless of the order
of preceding calls (the prior state is universally quantified). -/
theorem C1_activity_invariant :
    (∀ (s : GWPState) (cart : Cart), activityInvariant (processSnapshotTick s cart).1) ∧
    (∀ (s : GWPState) (a : ℚ), activityInvariant (setCurrentAmountTick s a).1) ∧
    (∀ (s : GWPState) (t : ℚ), activityInvariant (setThresholdTick s t).1) ∧
    (∀ s' : GWPState, activityInvariant s' →
      (s'.promoEnded = false → s'.threshold ≤ s'.currentAmount → s'.isActive = true) ∧
      (s'.currentAmount < s'.threshold → s'.isActive = false)) := by
  refine ⟨?_, ?_, ?_, ?_⟩
  · intro s cart
    simp only [activityInvariant, processSnapshotTick, uST_isActive, uST_threshold,
      uST_currentAmount, uST_promoEnded, checkGift_threshold, checkGift_currentAmount,
      checkGift_promoEnded]
  · intro s a
    simp only [activityInvariant, setCurrentAmountTick, uST_isActive, uST_threshold,
      uST_currentAmount, uST_promoEnded]
  · intro s t
    simp only [activityInvariant, setThresholdTick, uST_isActive, uST_threshold,
      uST_currentAmount, uST_promoEnded]
  · intro s' hinv
    constructor
    · intro hp hle
      simp [activityInvariant, hp, hle] at hinv
      exact hinv
    · intro hlt
      have h : ¬ s'.threshold ≤ s'.currentAmount := not_le.mpr hlt
      simp [activityInvariant, h] at hinv
      exact hinv

/-- Witness for C1 at concrete states: a state with amount 80 against
threshold 75 and the promo running satisfies the invariant and is
active; a state with amount 45 against threshold 75 is inactive. -/
theorem C1_activity_invariant_witness :
    (GWPState.mk 75 80 (some "V1") true false false none none).isActive = true ∧
    (GWPState.mk 75 45 (some "V1") false false false none none).isActive = false := by
  constructor
  · exact (C1_activity_invariant.2.2.2 _ (by norm_num [activityInvariant])).1 rfl (by norm_num)
  · exact (C1_activity_invariant.2.2.2 _ (by norm_num [activityInvariant])).2 (by norm_num)

lemma firedCarts_chain (ns : List Notification) (h : ns ≠ [])
    (hc : List.Chain' (fun a b => b.time < a.time + 300) ns) :
    firedCarts ns = [(ns.getLast h).cart] := by
  induction ns with
  | nil => exact absurd rfl h
  | cons a t ih =>
    cases t with
    | nil => simp [firedCarts]
    | cons b u =>
      rw [List.chain'_cons] at hc
      have hnb : ¬ (a.time + 300 ≤ b.time) := not_le.mpr hc.1
      have hrec := ih (List.cons_ne_nil b u) hc.2
      simp [firedCarts, hnb, hrec, List.getLast_cons]

/-- C4: snapshot notifications are debounced by a 300-unit quiet window
that resets on every notification: for any chronological burst of
accepted notifications in which each arrives less than 300 units after
the previous one, only the last snapshot's callback runs; in particular
three snapshots delivered within the window produce exactly one
recompute, and that recompute sets `currentAmount` to the last
snapshot's `calculated_subtotal` divided by 100. -/
theorem C4_debounce_collapses :
    (∀ (ns : List Notification) (h : ns ≠ []),
      (∀ n ∈ ns, acceptsNotification n.cart = true) →
      List.Chain' (fun a b => b.time < a.time + 300) ns →
      debounceFired ns = [(ns.getLast h).cart]) ∧
    (∀ (n1 n2 n3 : Notification) (s : GWPState) (q : ℚ),
      acceptsNotification n1.cart = true → acceptsNotification n2.cart = true →
      acceptsNotification n3.cart = true →
      n2.time < n1.time + 300 → n3.time < n2.time + 300 →
      n3.cart.calculated_subtotal = some q →
      debounceFired [n1, n2, n3] = [n3.cart] ∧
      ((processSnapshotTick s n3.cart).1).currentAmount = q / 100) := by
  have main : ∀ (ns : List Notification) (h : ns ≠ []),
      (∀ n ∈ ns, acceptsNotification n.cart = true) →
      List.Chain' (fun a b => b.time < a.time + 300) ns →
      debounceFired ns = [(ns.getLast h).cart] := by
    intro ns h hacc hc
    unfold debounceFired
    rw [List.filter_eq_self.mpr hacc]
    exact firedCarts_chain ns h hc
  refine ⟨main, ?_⟩
  intro n1 n2 n3 s q h1 h2 h3 ht2 ht3 hq
  constructor
  · have := main [n1, n2, n3] (by simp) (by
      intro n hn
      simp only [List.mem_cons, List.not_mem_nil, or_false] at hn
      rcases hn with rfl | rfl | rfl
      · exact h1
      · exact h2
      · exact h3)
      (by simp [List.chain'_cons, ht2, ht3])
    simpa using this
  · simp only [processSnapshotTick, uST_currentAmount, checkGift_currentAmount, hq]

/-- Witness for C4: three notifications at times 0, 100, 200 (all inside
one another's windows) collapse to the third snapshot only, and the one
recompute divides its 3000-cent subtotal by 100. -/
theorem C4_debounce_collapses_witness :
    debounceFired
      [ Notification.mk 0 (Cart.mk (some 1000) (some [])),
        Notification.mk 100 (Cart.mk (some 2000) (some [])),
        Notification.mk 200 (Cart.mk (some 3000) (some [])) ] =
      [Cart.mk (some 3000) (some [])] ∧
    ((processSnapshotTick (GWPState.mk 75 0 (some "V1") false false false none none)
        (Cart.mk (some 3000) (some []))).1).currentAmount = 30 := by
  have h := C4_debounce_collapses.2
    (Notification.mk 0 (Cart.mk (some 1000) (some [])))
    (Notification.mk 100 (Cart.mk (some 2000) (some [])))
    (Notification.mk 200 (Cart.mk (some 3000) (some [])))
    (GWPState.mk 75 0 (some "V1") false false false none none) 3000
    rfl rfl rfl (by norm_num) (by norm_num) rfl
  refine ⟨h.1, ?_⟩
  rw [h.2]
  norm_num

/-- C3 counterexample: a single snapshot (subtotal 8000 cents, one
matching gift line with key `k1`) processed with the promo ended and the
prior state inactive issues the quantity-0 removal request for line `k1`
twice, not once: once from `#checkGiftInCart` and once from the
promo-ended branch of `#updateState`, which both call
`#removeAllGiftItems` on the same matched line. -/
theorem C3_single_decision_counterexample :
    (processSnapshotTick (GWPState.mk 75 0 (some "V1") false false true none none)
        (Cart.mk (some 8000) (some [LineItem.mk "V1" "k1" true]))).2.1 =
      [Request.removeLine "k1" 0, Request.removeLine "k1" 0] ∧
    countRemoves
      (processSnapshotTick (GWPState.mk 75 0 (some "V1") false false true none none)
        (Cart.mk (some 8000) (some [LineItem.mk "V1" "k1" true]))).2.1 = 2 := by
  constructor
  · norm_num [processSnapshotTick, checkGiftInCart, updateStateTick, removeGiftFromCartSync,
      giftLinesOf, jsTruthyStr, (by decide : "V1".isEmpty = false)]
  · norm_num [processSnapshotTick, checkGiftInCart, updateStateTick, removeGiftFromCartSync,
      giftLinesOf, jsTruthyStr, countRemoves, isRemoveReq, (by decide : "V1".isEmpty = false)]

/-- C3 amended: when the promo has ended and the snapshot contains
exactly one matching gift line, its removal is requested unconditionally
— regardless of prior activity and of the amount — but not exactly once
per snapshot: the single snapshot issues the quantity-0 removal request
for the matched line twice (membership check plus the promo-ended branch
of the state update), and three times when the prior state was active
(the falling-edge branch fires as well). -/
theorem C3_promo_end_removal :
    ∀ (s : GWPState) (cart : Cart) (v : String) (its : List LineItem) (g : LineItem),
      s.promoEnded = true → s.variantId = some v → v.isEmpty = false →
      cart.items = some its → giftLinesOf v its = [g] →
      (processSnapshotTick s cart).2.1 =
        List.replicate (if s.isActive then 3 else 2) (Request.removeLine g.key 0) := by
  intro s cart v its g hp hv hvne hits hg
  cases hw : s.isActive <;>
    simp [processSnapshotTick, checkGiftInCart, updateStateTick, removeGiftFromCartSync,
      jsTruthyStr, hp, hv, hvne, hits, hg, hw, List.replicate]

/-- Witness for C3's amended statement: the same scenario as the
counterexample (promo ended, one matched line, prior state inactive)
instantiates the theorem and yields the two replicated removal
requests. -/
theorem C3_promo_end_removal_witness :
    (processSnapshotTick (GWPState.mk 80 0 (some "V2") false false true none none)
        (Cart.mk (some 5000) (some [LineItem.mk "V2" "kZ" true]))).2.1 =
      [Request.removeLine "kZ" 0, Request.removeLine "kZ" 0] := by
  have h := C3_promo_end_removal
    (GWPState.mk 80 0 (some "V2") false false true none none)
    (Cart.mk (some 5000) (some [LineItem.mk "V2" "kZ" true]))
    "V2" [LineItem.mk "V2" "kZ" true] (LineItem.mk "V2" "kZ" true)
    rfl rfl rfl rfl (by decide)
  simpa using h

lemma pST_noPromo (s : GWPState) (cart : Cart) (h : s.promoEnded = false) :
    processSnapshotTick s cart =
      ({ s with currentAmount := snapshotAmt cart,
                isActive := decide (s.threshold ≤ snapshotAmt cart),
                isAdded := !(matchedLines s.variantId cart).isEmpty },
       (if (decide (s.threshold ≤ snapshotAmt cart) && !s.isActive
            && (matchedLines s.variantId cart).isEmpty && jsTruthyStr s.variantId) = true
        then [Request.addGift (s.variantId.getD "") 1]
        else if (!decide (s.threshold ≤ snapshotAmt cart) && s.isActive
            && !(matchedLines s.variantId cart).isEmpty && jsTruthyStr s.variantId) = true
        then (matchedLines s.variantId cart).map (fun li => Request.removeLine li.key 0)
        else []),
       []) := by
  rcases hcv : s.variantId with _ | v
  all_goals rcases hc : cart.items with _ | its
  all_goals (try by_cases hve : v.isEmpty = true)
  all_goals (try by_cases hg : (giftLinesOf v its).isEmpty = true)
  all_goals by_cases hw : s.isActive = true
  all_goals by_cases hact : s.threshold ≤ snapshotAmt cart
  all_goals (try
    simp_all [processSnapshotTick, checkGiftInCart, updateStateTick, removeGiftFromCartSync,
      snapshotAmt, matchedLines, jsTruthyStr])
  all_goals
    (have hnle : ¬ s.threshold ≤
        (match cart.calculated_subtotal with | some q => q / 100 | none => 0) :=
      not_le.mpr hact
     simp [hnle])

/-- C2 counterexample to the claim as stated: four snapshots whose
activity levels go inactive, active, active, inactive (subtotals 1000,
8000, 9000, 2000 cents against threshold 75), with a variant id
configured, the promo running, and the gift absent on the rising edge —
but also absent from the falling-edge snapshot (e.g. removed
externally).  Exactly one add request is issued and zero remove
requests, not one: the falling edge finds `isAdded` false (the
membership check recomputed it from that snapshot) and skips the
removal branch. -/
theorem C2_edge_triggering_counterexample :
    (processAll (GWPState.mk 75 0 (some "V1") false false false none none)
        [ Cart.mk (some 1000) (some []), Cart.mk (some 8000) (some []),
          Cart.mk (some 9000) (some []), Cart.mk (some 2000) (some []) ]).2 =
      [Request.addGift "V1" 1] ∧
    countRemoves
      (processAll (GWPState.mk 75 0 (some "V1") false false false none none)
        [ Cart.mk (some 1000) (some []), Cart.mk (some 8000) (some []),
          Cart.mk (some 9000) (some []), Cart.mk (some 2000) (some []) ]).2 = 0 ∧
    ((processAll (GWPState.mk 75 0 (some "V1") false false false none none)
        [Cart.mk (some 1000) (some [])]).1).isActive = false ∧
    ((processAll (GWPState.mk 75 0 (some "V1") false false false none none)
        [Cart.mk (some 1000) (some []), Cart.mk (some 8000) (some [])]).1).isActive = true ∧
    ((processAll (GWPState.mk 75 0 (some "V1") false false false none none)
        [ Cart.mk (some 1000) (some []), Cart.mk (some 8000) (some []),
          Cart.mk (some 9000) (some []) ]).1).isActive = true ∧
    ((processAll (GWPState.mk 75 0 (some "V1") false false false none none)
        [ Cart.mk (some 1000) (some []), Cart.mk (some 8000) (some []),
          Cart.mk (some 9000) (some []), Cart.mk (some 2000) (some []) ]).1).isActive = false := by
  refine ⟨?_, ?_, ?_, ?_, ?_, ?_⟩
  all_goals
    norm_num [processAll, processSnapshotTick, checkGiftInCart, updateStateTick,
      removeGiftFromCartSync, giftLinesOf, jsTruthyStr, countRemoves, isRemoveReq,
      (by decide : "V1".isEmpty = false)]

/-- C2 amended: edge-triggering holds once the run starts from a
non-active state and the falling-edge snapshot actually still contains
the gift (exactly one matching line): across four snapshots whose
levels go inactive, active, active, inactive — with a variant id
configured, promo not ended, and the gift absent on the rising edge —
exactly one add request and exactly one remove request are issued,
whatever the other snapshots' line items; and any recompute under a
running promo that leaves the activity level unchanged issues no remote
call at all. -/
theorem C2_edge_triggering :
    (∀ (s0 : GWPState) (v : String) (c1 c2 c3 c4 : Cart)
        (q1 q2 q3 q4 : ℚ) (its2 its4 : List LineItem) (g : LineItem),
      s0.promoEnded = false → s0.isActive = false →
      s0.variantId = some v → v.isEmpty = false →
      c1.calculated_subtotal = some q1 → q1 / 100 < s0.threshold →
      c2.calculated_subtotal = some q2 → s0.threshold ≤ q2 / 100 →
      c2.items = some its2 → giftLinesOf v its2 = [] →
      c3.calculated_subtotal = some q3 → s0.threshold ≤ q3 / 100 →
      c4.calculated_subtotal = some q4 → q4 / 100 < s0.threshold →
      c4.items = some its4 → giftLinesOf v its4 = [g] →
      (processAll s0 [c1, c2, c3, c4]).2 =
        [Request.addGift v 1, Request.removeLine g.key 0]) ∧
    (∀ (s : GWPState) (cart : Cart),
      s.promoEnded = false →
      ((processSnapshotTick s cart).1).isActive = s.isActive →
      (processSnapshotTick s cart).2.1 = []) := by
  constructor
  · intro s0 v c1 c2 c3 c4 q1 q2 q3 q4 its2 its4 g hpe hw0 hv hve hs1 hlt1 hs2 hge2
      hi2 hg2 hs3 hge3 hs4 hlt4 hi4 hg4
    have ha1 : snapshotAmt c1 = q1 / 100 := by simp [snapshotAmt, hs1]
    have ha2 : snapshotAmt c2 = q2 / 100 := by simp [snapshotAmt, hs2]
    have ha3 : snapshotAmt c3 = q3 / 100 := by simp [snapshotAmt, hs3]
    have ha4 : snapshotAmt c4 = q4 / 100 := by simp [snapshotAmt, hs4]
    have hm2 : matchedLines (some v) c2 = [] := by simp [matchedLines, hi2, hve, hg2]
    have hm4 : matchedLines (some v) c4 = [g] := by simp [matchedLines, hi4, hve, hg4]
    have hd1 : decide (s0.threshold ≤ q1 / 100) = false := decide_eq_false (not_le.mpr hlt1)
    have hd2 : decide (s0.threshold ≤ q2 / 100) = true := decide_eq_true hge2
    have hd3 : decide (s0.threshold ≤ q3 / 100) = true := decide_eq_true hge3
    have hd4 : decide (s0.threshold ≤ q4 / 100) = false := decide_eq_false (not_le.mpr hlt4)
    have h1 := pST_noPromo s0 c1 hpe
    rw [ha1, hv, hw0, hpe] at h1
    rw [hd1] at h1
    simp [jsTruthyStr, hve] at h1
    have h2 := pST_noPromo
      (GWPState.mk s0.threshold (q1 / 100) (some v) false
        (!(matchedLines (some v) c1).isEmpty) false s0.messageAbove s0.messageBelow) c2 rfl
    simp [ha2, hm2, hd2, jsTruthyStr, hve] at h2
    have h3 := pST_noPromo
      (GWPState.mk s0.threshold (q2 / 100) (some v) true false false
        s0.messageAbove s0.messageBelow) c3 rfl
    simp [ha3, hd3, jsTruthyStr, hve] at h3
    have h4 := pST_noPromo
      (GWPState.mk s0.threshold (q3 / 100) (some v) true
        (!(matchedLines (some v) c3).isEmpty) false s0.messageAbove s0.messageBelow) c4 rfl
    simp [ha4, hd4, hm4, jsTruthyStr, hve] at h4
    simp [processAll, h1, h2, h3, h4]
  · intro s cart hpe hlev
    rw [pST_noPromo s cart hpe] at hlev ⊢
    cases hw : s.isActive <;> simp_all

/-- Witness for C2's amended statement: the same four-level run with the
gift line present in the third and fourth snapshots yields exactly one
add and one remove; and a single below-threshold snapshot processed from
a below-threshold inactive state issues no request. -/
theorem C2_edge_triggering_witness :
    (processAll (GWPState.mk 75 0 (some "V1") false false false none none)
        [ Cart.mk (some 1000) (some []), Cart.mk (some 8000) (some []),
          Cart.mk (some 9000) (some [LineItem.mk "V1" "k1" true]),
          Cart.mk (some 2000) (some [LineItem.mk "V1" "k1" true]) ]).2 =
      [Request.addGift "V1" 1, Request.removeLine "k1" 0] ∧
    (processSnapshotTick (GWPState.mk 75 10 (some "V1") false false false none none)
        (Cart.mk (some 1000) (some []))).2.1 = [] := by
  constructor
  · exact C2_edge_triggering.1
      (GWPState.mk 75 0 (some "V1") false false false none none) "V1"
      (Cart.mk (some 1000) (some [])) (Cart.mk (some 8000) (some []))
      (Cart.mk (some 9000) (some [LineItem.mk "V1" "k1" true]))
      (Cart.mk (some 2000) (some [LineItem.mk "V1" "k1" true]))
      1000 8000 9000 2000 [] [LineItem.mk "V1" "k1" true] (LineItem.mk "V1" "k1" true)
      rfl rfl rfl (by decide) rfl (by norm_num) rfl (by norm_num) rfl (by decide)
      rfl (by norm_num) rfl (by norm_num) rfl (by decide)
  · exact C2_edge_triggering.2
      (GWPState.mk 75 10 (some "V1") false false false none none)
      (Cart.mk (some 1000) (some [])) rfl
      (by norm_num [processSnapshotTick, checkGiftInCart, updateStateTick,
        removeGiftFromCartSync, giftLinesOf, jsTruthyStr, (by decide : "V1".isEmpty = false)])

/-- C5 counterexample to the claim as stated: a bulk removal of one
matched line whose request resolves with HTTP 500 — a non-2xx status —
is treated as a success by the source (no `res.ok` check in
`#removeAllGiftItems`): `isAdded` is cleared and `gwp:removed` is
dispatched, with no `gwp:error`, so a non-2xx response does not count as
a failure of the bulk operation. -/
theorem C5_bulk_remove_counterexample :
    ((removeAllGiftItems (GWPState.mk 75 80 (some "V1") true true false none none)
        [LineItem.mk "V1" "k1" true] [FetchOutcome.ok 500]).1).isAdded = false ∧
    (removeAllGiftItems (GWPState.mk 75 80 (some "V1") true true false none none)
        [LineItem.mk "V1" "k1" true] [FetchOutcome.ok 500]).2.1 =
      [Request.removeLine "k1" 0] ∧
    (removeAllGiftItems (GWPState.mk 75 80 (some "V1") true true false none none)
        [LineItem.mk "V1" "k1" true] [FetchOutcome.ok 500]).2.2 =
      [DomEvent.removed (some "V1")] ∧
    is2xx 500 = false := by
  refine ⟨?_, ?_, ?_, ?_⟩ <;> decide

/-- C5 amended: the bulk removal issues one quantity-0 mutation request
per matched gift line, keyed by line key (all fired before the await, in
parallel); it succeeds — clearing `isAdded` and dispatching one
`gwp:removed` — iff every request resolves, regardless of HTTP status
(the statuses are never inspected); when any request rejects (transport
failure), the failure is reported as a single `gwp:error` with action
"remove" and the state is left unchanged. -/
theorem C5_bulk_remove :
    ∀ (s : GWPState) (giftLines : List LineItem) (outcomes : List FetchOutcome),
      outcomes.length = giftLines.length →
      ((removeAllGiftItems s giftLines outcomes).2.1 =
        giftLines.map (fun li => Request.removeLine li.key 0)) ∧
      (firstErr outcomes = none →
        removeAllGiftItems s giftLines outcomes =
          ({ s with isAdded := false },
           giftLines.map (fun li => Request.removeLine li.key 0),
           [DomEvent.removed s.variantId])) ∧
      (∀ m, firstErr outcomes = some m →
        removeAllGiftItems s giftLines outcomes =
          (s, giftLines.map (fun li => Request.removeLine li.key 0),
           [DomEvent.error "remove" m])) := by
  intro s giftLines outcomes _
  refine ⟨?_, ?_, ?_⟩
  · cases h : firstErr outcomes <;> simp [removeAllGiftItems, h]
  · intro h
    simp [removeAllGiftItems, h]
  · intro m h
    simp [removeAllGiftItems, h]

/-- Witness for C5's amended statement: one matched line with a resolved
204 response succeeds (flag cleared, `gwp:removed`); one matched line
with a rejected request fails as a single bulk remove error. -/
theorem C5_bulk_remove_witness :
    removeAllGiftItems (GWPState.mk 75 80 (some "V1") true true false none none)
        [LineItem.mk "V1" "k1" true] [FetchOutcome.ok 204] =
      (GWPState.mk 75 80 (some "V1") true false false none none,
       [Request.removeLine "k1" 0], [DomEvent.removed (some "V1")]) ∧
    removeAllGiftItems (GWPState.mk 75 80 (some "V1") true true false none none)
        [LineItem.mk "V1" "k1" true] [FetchOutcome.err "network down"] =
      (GWPState.mk 75 80 (some "V1") true true false none none,
       [Request.removeLine "k1" 0], [DomEvent.error "remove" "network down"]) := by
  constructor
  · exact (C5_bulk_remove (GWPState.mk 75 80 (some "V1") true true false none none)
      [LineItem.mk "V1" "k1" true] [FetchOutcome.ok 204] rfl).2.1 rfl
  · exact (C5_bulk_remove (GWPState.mk 75 80 (some "V1") true true false none none)
      [LineItem.mk "V1" "k1" true] [FetchOutcome.err "network down"] rfl).2.2
      "network down" rfl

/-- C6: for every add attempt, a rejected request (transport failure) or
a resolved non-2xx response leaves `isAdded` at its pre-call value
(false), dispatches exactly one `gwp:error` with action "add" and a
human-readable message (`http <status>` for the non-2xx case), and
returns normally — the `catch` absorbs the failure, so no exception
escapes the component; a 2xx response sets `isAdded` and dispatches one
`gwp:added` carrying the variant id. -/
theorem C6_add_error_handling :
    ∀ (s : GWPState) (v : String) (outcome : FetchOutcome),
      s.isAdded = false → s.variantId = some v →
      (∀ m, outcome = FetchOutcome.err m →
        addGiftToCart s outcome =
          (s, [Request.addGift v 1], [DomEvent.error "add" m])) ∧
      (∀ st, outcome = FetchOutcome.ok st → is2xx st = false →
        addGiftToCart s outcome =
          (s, [Request.addGift v 1], [DomEvent.error "add" ("http " ++ toString st)])) ∧
      (∀ st, outcome = FetchOutcome.ok st → is2xx st = true →
        addGiftToCart s outcome =
          ({ s with isAdded := true }, [Request.addGift v 1], [DomEvent.added (some v)])) := by
  intro s v outcome _ hv
  refine ⟨?_, ?_, ?_⟩
  · intro m h
    subst h
    simp [addGiftToCart, hv]
  · intro st h h2
    subst h
    simp [addGiftToCart, hv, h2]
  · intro st h h2
    subst h
    simp [addGiftToCart, hv, h2]

/-- Witness for C6 at concrete outcomes: from a not-added state, a
rejected fetch and a 404 each leave the flag false and emit one add
error, while a 200 sets the flag and emits `gwp:added`. -/
theorem C6_add_error_handling_witness :
    addGiftToCart (GWPState.mk 75 80 (some "V1") true false false none none)
        (FetchOutcome.err "failed to fetch") =
      (GWPState.mk 75 80 (some "V1") true false false none none,
       [Request.addGift "V1" 1], [DomEvent.error "add" "failed to fetch"]) ∧
    addGiftToCart (GWPState.mk 75 80 (some "V1") true false false none none)
        (FetchOutcome.ok 404) =
      (GWPState.mk 75 80 (some "V1") true false false none none,
       [Request.addGift "V1" 1], [DomEvent.error "add" "http 404"]) ∧
    addGiftToCart (GWPState.mk 75 80 (some "V1") true false false none none)
        (FetchOutcome.ok 200) =
      (GWPState.mk 75 80 (some "V1") true true false none none,
       [Request.addGift "V1" 1], [DomEvent.added (some "V1")]) := by
  refine ⟨?_, ?_, ?_⟩
  · exact (C6_add_error_handling (GWPState.mk 75 80 (some "V1") true false false none none)
      "V1" (FetchOutcome.err "failed to fetch") rfl rfl).1 "failed to fetch" rfl
  · exact (C6_add_error_handling (GWPState.mk 75 80 (some "V1") true false false none none)
      "V1" (FetchOutcome.ok 404) rfl rfl).2.1 404 rfl (by decide)
  · exact (C6_add_error_handling (GWPState.mk 75 80 (some "V1") true false false none none)
      "V1" (FetchOutcome.ok 200) rfl rfl).2.2 200 rfl (by decide)

lemma stripFix_30 : stripDot00 (toFixed2 (30 : ℚ)) = "30" := by
  have hfloor : (⌊|(30 : ℚ)| * 100 + 1 / 2⌋ : ℤ) = 3000 := by norm_num
  have hneg : ¬ (30 : ℚ) < 0 := by norm_num
  unfold toFixed2
  rw [if_neg hneg, hfloor]
  decide

lemma stripFix_neg5 : stripDot00 (toFixed2 (-5 : ℚ)) = "-5" := by
  have hfloor : (⌊|(-5 : ℚ)| * 100 + 1 / 2⌋ : ℤ) = 500 := by norm_num
  have hneg : (-5 : ℚ) < 0 := by norm_num
  unfold toFixed2
  rw [if_pos hneg, hfloor]
  decide

/-- C7 counterexample to the claim as stated, in two parts.  First, the
spec's own example uses the bracket placeholder `[amount]`, but the
source replaces only the brace token, so with below-threshold message
`Add [amount] more`, threshold 75 and current 45, the rendered message
is the template unchanged and contains no digit `3` at all — in
particular not the formatted `30`.  Second, the remaining amount is
rendered negative when the promo has ended while the amount exceeds the
threshold: `#updateMessages` computes `threshold - currentAmount` with
no clamping at 0, so threshold 75 against current 80 renders `-5`. -/
theorem C7_message_rendering_counterexample :
    updateMessage (GWPState.mk 75 45 (some "V1") false false false none
      (some "Add [amount] more")) = "Add [amount] more" ∧
    ("Add [amount] more").data.contains '3' = false ∧
    updateMessage (GWPState.mk 75 80 (some "V1") false false true none
      (some "\x7bamount\x7d")) = "-5" := by
  refine ⟨?_, ?_, ?_⟩
  · have e1 : (75 : ℚ) - 45 = 30 := by norm_num
    simp only [updateMessage, jsTruthyStr]
    norm_num [e1, stripFix_30]
    decide
  · decide
  · have e1 : (75 : ℚ) - 80 = -5 := by norm_num
    simp only [updateMessage, jsTruthyStr]
    norm_num [e1, stripFix_neg5]
    decide

/-- C7 amended: message rendering is a pure function of the live state.
While active (with a nonempty above message) the above-threshold message
is used verbatim; while inactive (with a nonempty below message) the
brace placeholder `{amount}` (optional inner whitespace) is substituted
with the remaining amount `threshold - currentAmount` — not clamped at
0 — formatted (no money-format template exists in the source) as a
two-decimal string with a trailing `.00` stripped.  Under the recomputed
activity invariant the remaining amount is positive whenever the promo
is running and the state is inactive, so a negative amount can only be
rendered once the promo has ended.  With the brace form of the spec's
example (threshold 75, current 45), the rendered message is
`Add 30 more`. -/
theorem C7_message_rendering :
    (∀ (s : GWPState) (m : String), s.isActive = true → s.messageAbove = some m →
      m.isEmpty = false → updateMessage s = m) ∧
    (∀ (s : GWPState) (m : String), s.isActive = false → s.messageBelow = some m →
      m.isEmpty = false →
      updateMessage s =
        replaceAmount m (stripDot00 (toFixed2 (s.threshold - s.currentAmount)))) ∧
    (∀ s : GWPState, activityInvariant s → s.promoEnded = false → s.isActive = false →
      0 < s.threshold - s.currentAmount) ∧
    updateMessage (GWPState.mk 75 45 (some "V1") false false false none
      (some "Add \x7bamount\x7d more")) = "Add 30 more" := by
  refine ⟨?_, ?_, ?_, ?_⟩
  · intro s m ha hm hne
    simp [updateMessage, jsTruthyStr, ha, hm, hne]
  · intro s m hw hm hne
    simp [updateMessage, jsTruthyStr, hw, hm, hne]
  · intro s hinv hpe hw
    rw [activityInvariant, hw, hpe] at hinv
    simp only [Bool.not_false, Bool.and_true] at hinv
    have hlt : s.currentAmount < s.threshold := by
      by_contra hcon
      rw [not_lt] at hcon
      rw [decide_eq_true hcon] at hinv
      exact Bool.false_ne_true hinv
    linarith
  · have e1 : (75 : ℚ) - 45 = 30 := by norm_num
    simp only [updateMessage, jsTruthyStr]
    norm_num [e1, stripFix_30]
    decide

/-- Witness for C7's amended statement at concrete states: verbatim
above message while active, the below-template substitution while
inactive, and a positive remaining amount under the invariant. -/
theorem C7_message_rendering_witness :
    updateMessage (GWPState.mk 75 80 (some "V1") true false false
      (some "You unlocked the gift") none) = "You unlocked the gift" ∧
    updateMessage (GWPState.mk 75 45 (some "V1") false false false none
      (some "Add [amount] more")) =
      replaceAmount "Add [amount] more" (stripDot00 (toFixed2 ((75 : ℚ) - 45))) ∧
    (0 : ℚ) < 75 - 45 := by
  refine ⟨?_, ?_, ?_⟩
  · exact C7_message_rendering.1 _ "You unlocked the gift" rfl rfl (by decide)
  · exact C7_message_rendering.2.1 _ "Add [amount] more" rfl rfl (by decide)
  · exact C7_message_rendering.2.2.1
      (GWPState.mk 75 45 (some "V1") false false false none none)
      (by norm_num [activityInvariant]) rfl rfl

/-- C8: the class declares the six configuration attributes in
`observedAttributes`, but it defines no `attributeChangedCallback`, so a
post-attach attribute change invokes nothing: the instance state is
untouched and no recompute or request results.  Concretely, with
threshold 100 against current amount 50 (inactive), rewriting the
`threshold` attribute to `10` leaves the stored threshold at 100 and
`isActive` false, although the re-parse the claim requires would have
made the state active (10 <= 50).  The `attributeChangedCallback` that
performs the re-parse exists only in the older build under `dist/`, not
in the canonical source. -/
theorem C8_attribute_change_is_noop :
    "threshold" ∈ observedAttributes ∧
    (∀ (s : GWPState) (nm : String) (newVal : Option String),
      attributeChangedReaction s nm newVal = (s, [])) ∧
    ((attributeChangedReaction (GWPState.mk 100 50 (some "V1") false false false none none)
        "threshold" (some "10")).1).isActive = false ∧
    ((attributeChangedReaction (GWPState.mk 100 50 (some "V1") false false false none none)
        "threshold" (some "10")).1).threshold = 100 ∧
    (attributeChangedReaction (GWPState.mk 100 50 (some "V1") false false false none none)
        "threshold" (some "10")).2 = [] ∧
    (10 : ℚ) ≤ 50 ∧ (50 : ℚ) < 100 := by
  refine ⟨?_, ?_, ?_, ?_, ?_, ?_, ?_⟩
  · decide
  · intro s nm newVal
    rfl
  · rfl
  · norm_num [attributeChangedReaction]
  · rfl
  · norm_num
  · norm_num

/-- C9 counterexample to the claim as stated: a component attached with
no `cart-dialog` ancestor schedules the retry-attach timer (id 1, stored
in no instance field) and is then torn down before any cart
notification; `disconnectedCallback` clears nothing (no debounce timer
is pending and only `#debounceTimer` is ever passed to `clearTimeout`),
so the retry timer is still pending after teardown. -/
theorem C9_teardown_counterexample :
    pendingAfterTeardown false 1 = [1] ∧ disconnectedCancels none = [] := by
  constructor
  · decide
  · rfl

/-- C9 amended: teardown cancels the pending debounce timer (exactly the
one stored in `#debounceTimer`, when set) and detaches the cart-changed
listener exactly when a `cart-dialog` had been stored, but the
retry-attach timer is never among the cancelled timers — its id is held
by no instance field — so a pending retry callback can still run after
teardown. -/
theorem C9_teardown_cancellation :
    ∀ (d : Option ℕ) (dialogStored : Bool) (rid : ℕ),
      rid ∉ d.toList →
      disconnectedCancels d = d.toList ∧
      disconnectedDetachesListener dialogStored = dialogStored ∧
      rid ∉ disconnectedCancels d ∧
      pendingAfterTeardown false rid = [rid] := by
  intro d dialogStored rid hrid
  refine ⟨?_, rfl, ?_, ?_⟩
  · cases d <;> rfl
  · cases d with
    | none => simp [disconnectedCancels]
    | some t => simpa [disconnectedCancels] using hrid
  · simp [pendingAfterTeardown, attachRetryTimers, disconnectedCancels]

/-- Witness for C9's amended statement: with a pending debounce timer
id 7, a stored dialog, and retry id 1, teardown cancels exactly timer 7,
detaches the listener, and leaves retry timer 1 pending. -/
theorem C9_teardown_cancellation_witness :
    disconnectedCancels (some 7) = [7] ∧
    disconnectedDetachesListener true = true ∧
    1 ∉ disconnectedCancels (some 7) ∧
    pendingAfterTeardown false 1 = [1] := by
  have h := C9_teardown_cancellation (some 7) true 1 (by decide)
  exact ⟨h.1, h.2.1, h.2.2.1, h.2.2.2⟩

lemma removeSync_emptyCart (s : GWPState) :
    removeGiftFromCartSync s emptyCart = ({ s with isAdded := false }, [], []) := by
  rcases hv : s.variantId with _ | v <;>
    simp [removeGiftFromCartSync, emptyCart, giftLinesOf, hv]

lemma uST_empty_no_remove (s : GWPState) :
    (updateStateTick s emptyCart).2.1.filter isRemoveReq = [] := by
  simp only [updateStateTick]
  repeat' split
  all_goals simp [removeSync_emptyCart, isRemoveReq]

lemma uST_empty_falling_clears (s : GWPState) (hw : s.isActive = true)
    (hA : (decide (s.threshold ≤ s.currentAmount) && !s.promoEnded) = false)
    (hadd : s.isAdded = true) (v : String) (hv : s.variantId = some v)
    (hve : v.isEmpty = false) :
    ((updateStateTick s emptyCart).1).isAdded = false := by
  cases hp : s.promoEnded with
  | true => simp [updateStateTick, removeSync_emptyCart, hw, hadd, hv, hve, jsTruthyStr, hp]
  | false =>
    have hd : decide (s.threshold ≤ s.currentAmount) = false := by simpa [hp] using hA
    have hnle : ¬ s.threshold ≤ s.currentAmount := of_decide_eq_false hd
    simp [updateStateTick, removeSync_emptyCart, hw, hadd, hv, hve, jsTruthyStr, hp, hd, hnle]

lemma uST_empty_rising_adds (s : GWPState) (hp : s.promoEnded = false)
    (hw : s.isActive = false) (hadd : s.isAdded = false) (v : String)
    (hv : s.variantId = some v) (hve : v.isEmpty = false)
    (hA : (decide (s.threshold ≤ s.currentAmount) && !s.promoEnded) = true) :
    (updateStateTick s emptyCart).2.1 = [Request.addGift v 1] := by
  have hd : decide (s.threshold ≤ s.currentAmount) = true := by simpa [hp] using hA
  have hle : s.threshold ≤ s.currentAmount := of_decide_eq_true hd
  simp [updateStateTick, removeSync_emptyCart, hp, hw, hadd, hv, hve, jsTruthyStr, hd, hle]

/-- C10: the programmatic setters recompute against the synthetic
snapshot `{ items: [] }`, whose gift-line filter is always empty, so the
removal path never issues a remote request from a setter: the fired
requests contain no line-removal mutation.  Even on an
active-to-inactive transition with the gift marked added and a variant
id configured, `isAdded` is cleared locally with no cart mutation
(leaving any gift line in the external cart untouched), while the add
path can still issue a real add request on a rising edge. -/
theorem C10_setters_frame :
    ∀ (s : GWPState) (a t : ℚ) (v : String),
      ((setCurrentAmountTick s a).2.1.filter isRemoveReq = [] ∧
       (setThresholdTick s t).2.1.filter isRemoveReq = []) ∧
      (s.isActive = true → ((setCurrentAmountTick s a).1).isActive = false →
        s.isAdded = true → s.variantId = some v → v.isEmpty = false →
        ((setCurrentAmountTick s a).1).isAdded = false) ∧
      (s.isActive = true → ((setThresholdTick s t).1).isActive = false →
        s.isAdded = true → s.variantId = some v → v.isEmpty = false →
        ((setThresholdTick s t).1).isAdded = false) ∧
      (s.promoEnded = false → s.isActive = false → s.isAdded = false →
        s.variantId = some v → v.isEmpty = false →
        ((setCurrentAmountTick s a).1).isActive = true →
        (setCurrentAmountTick s a).2.1 = [Request.addGift v 1]) := by
  intro s a t v
  refine ⟨⟨?_, ?_⟩, ?_, ?_, ?_⟩
  · exact uST_empty_no_remove { s with currentAmount := a }
  · exact uST_empty_no_remove { s with threshold := t }
  · intro hw hpost hadd hv hve
    simp only [setCurrentAmountTick] at hpost ⊢
    have hA := (uST_isActive { s with currentAmount := a } emptyCart).symm.trans hpost
    exact uST_empty_falling_clears { s with currentAmount := a } hw hA hadd v hv hve
  · intro hw hpost hadd hv hve
    simp only [setThresholdTick] at hpost ⊢
    have hA := (uST_isActive { s with threshold := t } emptyCart).symm.trans hpost
    exact uST_empty_falling_clears { s with threshold := t } hw hA hadd v hv hve
  · intro hp hw hadd hv hve hpost
    simp only [setCurrentAmountTick] at hpost ⊢
    have hA := (uST_isActive { s with currentAmount := a } emptyCart).symm.trans hpost
    exact uST_empty_rising_adds { s with currentAmount := a } hp hw hadd v hv hve hA

/-- Witness for C10 at concrete calls: `setCurrentAmount 10` from an
active added state (threshold 75, current 80) clears `isAdded` locally
and fires no removal request; `setCurrentAmount 80` from an inactive
state fires exactly the add request. -/
theorem C10_setters_frame_witness :
    (setCurrentAmountTick (GWPState.mk 75 80 (some "V1") true true false none none)
        10).2.1.filter isRemoveReq = [] ∧
    ((setCurrentAmountTick (GWPState.mk 75 80 (some "V1") true true false none none)
        10).1).isAdded = false ∧
    (setCurrentAmountTick (GWPState.mk 75 10 (some "V1") false false false none none)
        80).2.1 = [Request.addGift "V1" 1] := by
  have h1 := C10_setters_frame (GWPState.mk 75 80 (some "V1") true true false none none)
    10 10 "V1"
  have h2 := C10_setters_frame (GWPState.mk 75 10 (some "V1") false false false none none)
    80 80 "V1"
  refine ⟨h1.1.1, ?_, ?_⟩
  · exact h1.2.1 rfl
      (by norm_num [setCurrentAmountTick, uST_isActive]) rfl rfl (by decide)
  · exact h2.2.2.2 rfl rfl rfl rfl (by decide)
      (by norm_num [setCurrentAmountTick, uST_isActive])

end GWP
